import Mathlib

/-!
Shallow embedding of the media core of the Cadence video-editing agent.

The embedding covers:
* the duplicated timecode parser `parse_time_to_seconds`
  (src/tools/view_tool.py, src/utils/ffmpeg_utils.py, and the import
  fallback in src/tools/save_video_segment_tool.py);
* `extract_frames`, `extract_audio_segment` (src/utils/ffmpeg_utils.py);
* `view_video_segment_impl` (src/tools/view_tool.py);
* `save_video_segment_impl` (src/tools/save_video_segment_tool.py);
* `format_duration` and `list_directory_contents_impl`
  (src/tools/file_system_tool.py).

Modelling conventions:
* Python floats are modelled by `ℚ`.  Every second count handled by the
  code has the form `integer + k/1000` with small components; IEEE
  doubles represent such values with error far below the `1/1000`
  spacing between distinct ones, so every comparison the code performs
  coincides with the rational comparison.
* The external `ffmpeg`/`ffprobe` engine and the file system are
  modelled by oracle fields of an environment record.  Each operation
  also reports the engine command it issued (if any), so theorems can
  speak about which invocations were attempted.
* Strings are processed through `String.data : String → List Char` and
  structurally recursive helpers mirroring the Python string methods, so
  every definition evaluates by kernel reduction.
-/

namespace Cadence

/-! ### Python string primitives -/

/-- Model of Python `str.split(sep)` for a one-character separator:
splits at every occurrence and keeps empty pieces, so the result is
always a non-empty list (`"".split(x) == [""]`). -/
def splitOnChar (sep : Char) : List Char → List (List Char)
  | [] => [[]]
  | c :: cs =>
    if c = sep then
      [] :: splitOnChar sep cs
    else
      match splitOnChar sep cs with
      | [] => [[c]]
      | p :: ps => (c :: p) :: ps

/-- Value of a decimal digit character, if it is one. -/
def digitVal (c : Char) : Option ℕ :=
  if c.isDigit then some (c.toNat - '0'.toNat) else none

/-- Accumulate a decimal number over a digit list; fails at the first
non-digit character. -/
def digitsToNatAux (acc : ℕ) : List Char → Option ℕ
  | [] => some acc
  | c :: cs =>
    match digitVal c with
    | some d => digitsToNatAux (10 * acc + d) cs
    | none => none

/-- Model of Python `int(s)` on the strings this program feeds it: an
optional sign followed by a non-empty run of decimal digits; anything
else raises `ValueError` (modelled as `none`).  Python additionally
strips surrounding whitespace and accepts underscore digit grouping;
no behaviour verified here depends on those extra acceptances. -/
def pyIntChars : List Char → Option ℤ
  | [] => none
  | '-' :: cs =>
    if cs = [] then none else (digitsToNatAux 0 cs).map (fun n => -(n : ℤ))
  | '+' :: cs =>
    if cs = [] then none else (digitsToNatAux 0 cs).map (fun n => (n : ℤ))
  | cs => (digitsToNatAux 0 cs).map (fun n => (n : ℤ))

/-- Model of Python `str.lower` (the file names and extensions involved
are ASCII, where `Char.toLower` agrees with Python). -/
def toLowerChars (l : List Char) : List Char :=
  l.map Char.toLower

/-- Model of Python `str.endswith` for a single suffix. -/
def endsWithChars (l suffixChars : List Char) : Bool :=
  decide (l.reverse.take suffixChars.length = suffixChars.reverse)

/-! ### The duplicated timecode parser

The source contains three line-for-line identical copies of
`parse_time_to_seconds`; each is embedded separately below, over shared
helpers that model the identical lines.  Each copy is split into a
field-extraction stage (the `split`/`int` work, which is where every
failure happens) and the final float arithmetic, applied uniformly:
`h*3600 + m*60 + s + ms/1000` with `h = 0` (and `m = 0`) for the
shorter shapes, exactly as in the per-branch Python returns. -/

/-- Model of the `s_parts = part.split('.')` block shared by all three
parsers: seconds plus optional millisecond field.  Only `s_parts[0]` and
`s_parts[1]` are read — fragments after a second dot are ignored. -/
def parseFrac (p : List Char) : Option (ℤ × ℤ) :=
  match splitOnChar '.' p with
  | [] => none
  | [s0] => (pyIntChars s0).map (fun s => (s, 0))
  | s0 :: s1 :: _ =>
    match pyIntChars s0, pyIntChars s1 with
    | some s, some ms => some (s, ms)
    | _, _ => none

/-- `float(h * 3600 + m * 60 + s + ms / 1000.0)`. -/
def secondsOf (h m s ms : ℤ) : ℚ :=
  ((h * 3600 + m * 60 + s : ℤ) : ℚ) + (ms : ℚ) / 1000

namespace ViewTool

/-- Field extraction of `parse_time_to_seconds` from
src/tools/view_tool.py (lines 15-44): split on `:`, dispatch on the
segment count, convert each consumed component with `int`; any
`ValueError` yields `None`. -/
def parse_time_fields (timeStr : String) : Option (ℤ × ℤ × ℤ × ℤ) :=
  match splitOnChar ':' timeStr.data with
  | [p0] =>
    (parseFrac p0).map (fun sm => (0, 0, sm.1, sm.2))
  | [p0, p1] =>
    match pyIntChars p0, parseFrac p1 with
    | some m, some sm => some (0, m, sm.1, sm.2)
    | _, _ => none
  | [p0, p1, p2] =>
    match pyIntChars p0, pyIntChars p1, parseFrac p2 with
    | some h, some m, some sm => some (h, m, sm.1, sm.2)
    | _, _, _ => none
  | _ => none

/-- `parse_time_to_seconds` from src/tools/view_tool.py. -/
def parse_time_to_seconds (timeStr : String) : Option ℚ :=
  (parse_time_fields timeStr).map (fun x => secondsOf x.1 x.2.1 x.2.2.1 x.2.2.2)

end ViewTool

namespace FfmpegUtils

/-- Field extraction of `parse_time_to_seconds` from
src/utils/ffmpeg_utils.py (lines 18-55).  The extra
`isinstance(time_str, str)` guard is always true in this typed
embedding, and the extra catch-all `except Exception` can never fire on
a string input, so the body coincides with the view-tool copy. -/
def parse_time_fields (timeStr : String) : Option (ℤ × ℤ × ℤ × ℤ) :=
  match splitOnChar ':' timeStr.data with
  | [p0] =>
    (parseFrac p0).map (fun sm => (0, 0, sm.1, sm.2))
  | [p0, p1] =>
    match pyIntChars p0, parseFrac p1 with
    | some m, some sm => some (0, m, sm.1, sm.2)
    | _, _ => none
  | [p0, p1, p2] =>
    match pyIntChars p0, pyIntChars p1, parseFrac p2 with
    | some h, some m, some sm => some (h, m, sm.1, sm.2)
    | _, _, _ => none
  | _ => none

/-- `parse_time_to_seconds` from src/utils/ffmpeg_utils.py. -/
def parse_time_to_seconds (timeStr : String) : Option ℚ :=
  (parse_time_fields timeStr).map (fun x => secondsOf x.1 x.2.1 x.2.2.1 x.2.2.2)

end FfmpegUtils

namespace SaveTool

/-- Field extraction of the import-failure fallback
`parse_time_to_seconds` defined inside
src/tools/save_video_segment_tool.py (lines 16-43). -/
def parse_time_fields (timeStr : String) : Option (ℤ × ℤ × ℤ × ℤ) :=
  match splitOnChar ':' timeStr.data with
  | [p0] =>
    (parseFrac p0).map (fun sm => (0, 0, sm.1, sm.2))
  | [p0, p1] =>
    match pyIntChars p0, parseFrac p1 with
    | some m, some sm => some (0, m, sm.1, sm.2)
    | _, _ => none
  | [p0, p1, p2] =>
    match pyIntChars p0, pyIntChars p1, parseFrac p2 with
    | some h, some m, some sm => some (h, m, sm.1, sm.2)
    | _, _, _ => none
  | _ => none

/-- The import-failure fallback `parse_time_to_seconds` of
src/tools/save_video_segment_tool.py. -/
def parse_time_to_seconds (timeStr : String) : Option ℚ :=
  (parse_time_fields timeStr).map (fun x => secondsOf x.1 x.2.1 x.2.2.1 x.2.2.2)

end SaveTool

/-! ### Data model and engine environment -/

/-- Probe result built by `get_video_metadata`
(src/utils/ffmpeg_utils.py, lines 58-122).  The dictionary always
carries all five keys once the probe succeeds. -/
structure VideoMetadata where
  duration_seconds : ℚ
  width : ℕ
  height : ℕ
  fps : ℚ
  has_audio : Bool
deriving DecidableEq

/-- `QUALITY_TARGET_WIDTHS` (src/utils/ffmpeg_utils.py, lines 12-16)
together with the `dict.get(quality_level, QUALITY_TARGET_WIDTHS["low"])`
lookup of line 147: unknown tiers fall back to the low tier. -/
def qualityTargetWidth (qualityLevel : String) : ℕ :=
  if qualityLevel = "low" then 640
  else if qualityLevel = "medium" then 1280
  else if qualityLevel = "high" then 1920
  else 640

/-- The scale-filter decision of src/utils/ffmpeg_utils.py, lines
144-158: `scale=<target>:-1` (aspect-ratio preserving) is attached iff
the probed width is known and strictly larger than the target width. -/
def scaleFilterOf (metadata : Option VideoMetadata) (qualityLevel : String) : Option ℕ :=
  let originalWidth := match metadata with | some m => m.width | none => 0
  let targetWidth := qualityTargetWidth qualityLevel
  if 0 < originalWidth ∧ targetWidth < originalWidth then some targetWidth else none

/-- An ffmpeg frame-extraction invocation.  `single` is an
`-ss seek [-to stop] -vframes 1` run; `multi` is an
`-ss seek -to stop` run through the `fps=fpsFilter` filter.  `scale`
records the attached `scale=w:-1` filter, if any. -/
inductive FrameCmd
  | single (seek : ℚ) (stop : Option ℚ) (scale : Option ℕ)
  | multi (seek stop fpsFilter : ℚ) (scale : Option ℕ)
deriving DecidableEq

/-- The scale filter attached to a frame command. -/
def FrameCmd.scaleOf : FrameCmd → Option ℕ
  | .single _ _ sc => sc
  | .multi _ _ _ sc => sc

/-- The seek position (`-ss`) of a frame command. -/
def FrameCmd.seekOf : FrameCmd → ℚ
  | .single s _ _ => s
  | .multi s _ _ _ => s

/-- Environment for one sampling request: the file system and the
decode engine, as seen by `view_video_segment_impl` and the
`ffmpeg_utils` helpers.  Frame and audio payloads are abstract byte
buffers, modelled as `ℕ`.

* `singleFrame seek scale`: outcome of a `-vframes 1` invocation.  A
  single-frame output emits the first frame at/after the seek point, so
  it is determined by the seek position (and scaling), not by the `-to`
  bound; `none` collapses the failure modes (non-zero exit status, or
  no output file written).
* `producedCount seek stop fps scale`: how many consecutively numbered
  frame files (`frame_0000.png`, ...) an `fps`-filtered invocation
  wrote into the temporary directory.
* `frameFile i`: content of the i-th frame file.
* `audioBytes seek stop`: outcome of the audio invocation; `none`
  collapses non-zero exit status, an empty output file, and a read
  failure. -/
structure MediaEnv where
  fileExists : Bool
  metadata : Option VideoMetadata
  singleFrame : ℚ → Option ℕ → Option ℕ
  producedCount : ℚ → ℚ → ℚ → Option ℕ → ℕ
  frameFile : ℕ → ℕ
  audioBytes : ℚ → ℚ → Option ℕ

/-- Result of `extract_frames`: the collected frame buffers plus the
engine command that was issued (`none` when an input guard returned
early, before any invocation). -/
structure ExtractResult where
  frames : List ℕ
  cmd : Option FrameCmd
deriving DecidableEq

/-- The shared tail of the two single-frame paths of `extract_frames`
(src/utils/ffmpeg_utils.py, lines 176-198 and 200-218): run a
`-vframes 1` invocation and collect the one frame if it was written. -/
def runSingleFrame (env : MediaEnv) (seek : ℚ) (stop : Option ℚ) (scaleF : Option ℕ) :
    ExtractResult :=
  match env.singleFrame seek scaleF with
  | some f => ⟨[f], some (.single seek stop scaleF)⟩
  | none => ⟨[], some (.single seek stop scaleF)⟩

/-- `extract_frames` (src/utils/ffmpeg_utils.py, lines 125-259).

Guards in source order: missing file, non-positive `num_frames`,
invalid range (`start < 0 or end < start`) each return `[]` without
touching the engine.  Then:
* `num_frames == 1`: one `-ss start -to end -vframes 1` run;
* `num_frames > 1` with a near-zero span (`end - start <= 0.001`):
  single-frame fallback re-inputting with `-ss start` only (the end
  time is dropped from the command);
* otherwise the `fps = num_frames / (end - start)` filter run, after
  which files `frame_0000.png ..` are collected in order, stopping at
  the first missing index (a non-zero exit status is only logged, so
  frames that were written are still collected). -/
def extract_frames (env : MediaEnv) (startSec endSec : ℚ) (numFrames : ℤ)
    (qualityLevel : String) : ExtractResult :=
  if env.fileExists = false then ⟨[], none⟩
  else if numFrames ≤ 0 then ⟨[], none⟩
  else if startSec < 0 ∨ endSec < startSec then ⟨[], none⟩
  else
    let scaleF := scaleFilterOf env.metadata qualityLevel
    -- `if segment_duration < 0: segment_duration = 0` — a no-op after
    -- the range guard, mirrored for fidelity.
    let segmentDuration := if endSec - startSec < 0 then 0 else endSec - startSec
    if numFrames = 1 then
      runSingleFrame env startSec (some endSec) scaleF
    else if segmentDuration ≤ 1 / 1000 then
      runSingleFrame env startSec none scaleF
    else
      let fpsVal :=
        if 1 / 1000 < segmentDuration then (numFrames : ℚ) / segmentDuration
        else (numFrames : ℚ)
      let produced := env.producedCount startSec endSec fpsVal scaleF
      ⟨(List.range (min produced numFrames.toNat)).map env.frameFile,
        some (.multi startSec endSec fpsVal scaleF)⟩

/-- Result of `extract_audio_segment`: the WAV buffer (if any) plus the
audio command issued (`none` when a guard returned before the engine
was invoked). -/
structure AudioResult where
  bytes : Option ℕ
  cmd : Option (ℚ × ℚ)
deriving DecidableEq

/-- `extract_audio_segment` (src/utils/ffmpeg_utils.py, lines 262-345).

Guards in source order: missing file, invalid range, non-positive
duration, then the fresh metadata probe (`not metadata or not
metadata.get("has_audio")`) all return `None` without invoking the
engine; only then is the `-ss start -to end` audio run attempted. -/
def extract_audio_segment (env : MediaEnv) (startSec endSec : ℚ) : AudioResult :=
  if env.fileExists = false then ⟨none, none⟩
  else if startSec < 0 ∨ endSec < startSec then ⟨none, none⟩
  else if endSec - startSec ≤ 0 then ⟨none, none⟩
  else
    match env.metadata with
    | none => ⟨none, none⟩
    | some m =>
      if m.has_audio = false then ⟨none, none⟩
      else ⟨env.audioBytes startSec endSec, some (startSec, endSec)⟩

/-! ### view_video_segment_impl -/

/-- The distinct error messages `view_video_segment_impl` can put into
`status_json["message"]`, in source order of their checks. -/
inductive ViewErr
  | fileNotFound
  | badTimeFormat
  | negativeTime
  | endBeforeStart
  | probeFailed
  | startBeyondDuration
deriving DecidableEq

/-- `status_json["status"]` of the view tool: `"error"`, `"success"`,
or the `"partial_success"` used when nothing was extracted but no
validation error occurred. -/
inductive ViewStatus
  | err (e : ViewErr)
  | ok
  | okNoMedia
deriving DecidableEq

/-- Result of `view_video_segment_impl`: the status dictionary plus the
`images` and `audios` payload lists, extended with the engine commands
issued on the way (for stating that no extraction was attempted). -/
structure ViewResult where
  status : ViewStatus
  images : List ℕ
  audios : List ℕ
  frameCmd : Option FrameCmd
  audioCmd : Option (ℚ × ℚ)
deriving DecidableEq

/-- `DEFAULT_NUM_FRAMES` handling of src/tools/view_tool.py, lines
58-62: `None` or a non-positive count falls back to 3. -/
def effectiveNumFrames (numFrames : Option ℤ) : ℤ :=
  match numFrames with
  | none => 3
  | some k => if k ≤ 0 then 3 else k

/-- Quality defaulting of src/tools/view_tool.py, line 64
(`quality if quality else DEFAULT_QUALITY_LEVEL`): Python truthiness
makes both `None` and the empty string fall back to `"low"`. -/
def effectiveQuality (quality : Option String) : String :=
  match quality with
  | none => "low"
  | some q => if q = "" then "low" else q

/-- `view_video_segment_impl` (src/tools/view_tool.py, lines 46-174).

Validation in source order: file existence, timecode parses, both
times non-negative, `end < start`, metadata probe, then a *strict*
`start > duration` rejection.  The end is then clamped to
`min(end, duration)` and frame extraction runs over the clamped range;
a single audio slice is attempted when the clamped span is non-negative
and the probe reported an audio track.  The extractors re-see the same
environment (the probe and the file system are stateless within one
request). -/
def view_video_segment_impl (env : MediaEnv) (startTime endTime : String)
    (numFrames : Option ℤ) (quality : Option String) : ViewResult :=
  let n := effectiveNumFrames numFrames
  let q := effectiveQuality quality
  if env.fileExists = false then ⟨.err .fileNotFound, [], [], none, none⟩
  else
    match ViewTool.parse_time_to_seconds startTime, ViewTool.parse_time_to_seconds endTime with
    | none, _ => ⟨.err .badTimeFormat, [], [], none, none⟩
    | some _, none => ⟨.err .badTimeFormat, [], [], none, none⟩
    | some s, some e =>
      if s < 0 ∨ e < 0 then ⟨.err .negativeTime, [], [], none, none⟩
      else if e < s then ⟨.err .endBeforeStart, [], [], none, none⟩
      else
        match env.metadata with
        | none => ⟨.err .probeFailed, [], [], none, none⟩
        | some m =>
          if m.duration_seconds < s then ⟨.err .startBeyondDuration, [], [], none, none⟩
          else
            let effEnd := min e m.duration_seconds
            let fr := extract_frames env s effEnd n q
            let au :=
              if 0 ≤ effEnd - s ∧ m.has_audio = true then extract_audio_segment env s effEnd
              else ⟨none, none⟩
            let audios := match au.bytes with | some b => [b] | none => []
            let status :=
              if fr.frames ≠ [] ∨ audios ≠ [] then ViewStatus.ok else ViewStatus.okNoMedia
            ⟨status, fr.frames, audios, fr.cmd, au.cmd⟩

/-! ### save_video_segment_impl -/

/-- The distinct error messages `save_video_segment_impl` can return,
in source order of their checks. -/
inductive SaveErr
  | mkdirFailed
  | sourceNotFound
  | badTimeFormat
  | negativeTime
  | endNotAfterStart
  | startBeyondDuration
  | collapsedAfterClamp
  | engineFailed
deriving DecidableEq

/-- Status of the save tool result dictionary. -/
inductive SaveStatus
  | err (e : SaveErr)
  | ok
deriving DecidableEq

/-- The ffmpeg trim invocation.  The source passes the *original
time strings* to `ffmpeg.input(..., ss=start_time, to=end_time)`
(src/tools/save_video_segment_tool.py, line 131) — not the clamped
seconds. -/
structure TrimCmd where
  ssArg : String
  toArg : String
deriving DecidableEq

/-- Result of `save_video_segment_impl`: the status, the trim command
issued (`none` when validation failed before reaching ffmpeg — in
particular no output file is written then), and the normalized output
file name reported on success. -/
structure SaveResult where
  status : SaveStatus
  trimCmd : Option TrimCmd
  outputName : Option String
deriving DecidableEq

/-- Environment of one save request: output-directory creation, source
existence, the metadata probe, and whether the trim run exits
successfully. -/
structure SaveEnv where
  mkdirOk : Bool
  sourceExists : Bool
  metadata : Option VideoMetadata
  trimOk : Bool

/-- Extension normalization of src/tools/save_video_segment_tool.py,
lines 81-84: a name whose lowercase form ends in none of
`.mp4/.mov/.avi/.mkv` gets `.mp4` appended. -/
def normalizeOutputName (name : String) : String :=
  if ([".mp4", ".mov", ".avi", ".mkv"].any
      (fun ext => endsWithChars (toLowerChars name.data) ext.data)) then name
  else name ++ ".mp4"

/-- `save_video_segment_impl` (src/tools/save_video_segment_tool.py,
lines 51-168).

Order of checks: output-directory creation, source existence, output
extension normalization, timecode parses, non-negative times, strict
ordering (`end <= start` rejected), then — only when metadata is
available — `start >= duration` rejection, clamping of the end to the
duration, and the post-clamp collapse re-check.  When metadata cannot
be probed the code proceeds without duration validation.  Finally the
ffmpeg trim runs with the original time strings. -/
def save_video_segment_impl (env : SaveEnv) (startTime endTime : String)
    (outputFileName : String) : SaveResult :=
  if env.mkdirOk = false then ⟨.err .mkdirFailed, none, none⟩
  else if env.sourceExists = false then ⟨.err .sourceNotFound, none, none⟩
  else
    let outName := normalizeOutputName outputFileName
    match ViewTool.parse_time_to_seconds startTime, ViewTool.parse_time_to_seconds endTime with
    | none, _ => ⟨.err .badTimeFormat, none, none⟩
    | some _, none => ⟨.err .badTimeFormat, none, none⟩
    | some s, some e =>
      if s < 0 ∨ e < 0 then ⟨.err .negativeTime, none, none⟩
      else if e ≤ s then ⟨.err .endNotAfterStart, none, none⟩
      else
        let runTrim : SaveResult :=
          if env.trimOk then ⟨.ok, some ⟨startTime, endTime⟩, some outName⟩
          else ⟨.err .engineFailed, some ⟨startTime, endTime⟩, none⟩
        match env.metadata with
        | some m =>
          if m.duration_seconds ≤ s then ⟨.err .startBeyondDuration, none, none⟩
          else if m.duration_seconds < e then
            -- `end_time_sec = video_duration_sec` followed by the
            -- post-clamp re-check `if end_time_sec <= start_time_sec`.
            if m.duration_seconds ≤ s then ⟨.err .collapsedAfterClamp, none, none⟩
            else runTrim
          else runTrim
        | none => runTrim

/-! ### file_system_tool -/

/-- The three `os.path` classifications the listing loop distinguishes. -/
inductive EntryKind
  | file
  | dir
  | other
deriving DecidableEq

/-- One entry of the scanned directory, with the outcome of its
metadata probe and its on-disk size. -/
structure DirEntry where
  name : String
  kind : EntryKind
  probe : Option VideoMetadata
  sizeBytes : ℕ
deriving DecidableEq

/-- `VIDEO_EXTENSIONS` (src/tools/file_system_tool.py, line 12). -/
def VIDEO_EXTENSIONS : List String :=
  [".mp4", ".mov", ".avi", ".mkv", ".flv", ".wmv", ".webm"]

/-- The `os.path.isfile(..) and item_name.lower().endswith(VIDEO_EXTENSIONS)`
test of line 43. -/
def isVideoFileEntry (e : DirEntry) : Bool :=
  decide (e.kind = EntryKind.file) &&
    VIDEO_EXTENSIONS.any (fun ext => endsWithChars (toLowerChars e.name.data) ext.data)

/-- Zero-padded rendering of `f"{n:02}"`. -/
def pad2 (n : ℤ) : String :=
  let s := toString n
  if s.length < 2 then "0" ++ s else s

/-- `format_duration` (src/tools/file_system_tool.py, lines 14-21):
`HH:MM:SS` from non-negative seconds, `"N/A"` otherwise (the `None`
case cannot arise here because the probe always fills the key). -/
def format_duration (seconds : ℚ) : String :=
  if seconds < 0 then "N/A"
  else
    let hours : ℤ := ⌊seconds / 3600⌋
    let m3600 : ℚ := seconds - 3600 * (⌊seconds / 3600⌋ : ℚ)
    let minutes : ℤ := ⌊m3600 / 60⌋
    let m60 : ℚ := seconds - 60 * (⌊seconds / 60⌋ : ℚ)
    let secs : ℤ := ⌊m60⌋
    pad2 hours ++ ":" ++ pad2 minutes ++ ":" ++ pad2 secs

/-- Two-digit fraction rendering used by `fmt2`. -/
def pad2frac (n : ℕ) : String :=
  if n < 10 then "0" ++ toString n else toString n

/-- Model of Python `f"{x:.2f}"` on the non-negative values formatted
here, as round-half-up at two decimals (Python rounds the underlying
binary double half-to-even; no verified behaviour depends on tie
handling). -/
def fmt2 (q : ℚ) : String :=
  let n : ℤ := ⌊q * 100 + 1 / 2⌋
  let a := n.natAbs
  (if n < 0 then "-" else "") ++ toString (a / 100) ++ "." ++ pad2frac (a % 100)

/-- The per-file block built by lines 45-64: full metadata when the
probe succeeds, the metadata-unavailable marker otherwise. -/
def infoLine (e : DirEntry) : String :=
  match e.probe with
  | some m =>
    "- " ++ e.name ++ ":\n    Duration: " ++ format_duration m.duration_seconds
      ++ "\n    Resolution: " ++ toString m.width ++ "x" ++ toString m.height
      ++ "\n    FPS: " ++ fmt2 m.fps
      ++ "\n    Size: " ++ fmt2 ((e.sizeBytes : ℚ) / (1024 * 1024)) ++ " MB"
  | none =>
    "- " ++ e.name ++ ":\n    Metadata: Could not retrieve or not a valid video format."

/-- Python `sep.join`. -/
def joinSep (sep : String) : List String → String
  | [] => ""
  | [x] => x
  | x :: xs => x ++ sep ++ joinSep sep xs

/-- `os.path.basename` on the slash-separated paths used here. -/
def baseName (p : String) : String :=
  ⟨(splitOnChar '/' p.data).getLastD []⟩

/-- The info lines the listing builds: one per video file of the
directory, in scan order. -/
def listingLines (entries : List DirEntry) : List String :=
  (entries.filter fun e => isVideoFileEntry e).map infoLine

/-- `list_directory_contents_impl` (src/tools/file_system_tool.py,
lines 23-80).  `dirExists` models `os.path.isdir`; `accessOk` models
the `except Exception` wrapper around the scan (whose message also
carries the exception text, abstracted away here); `entries` is the
`sorted(os.listdir(..))` sequence. -/
def list_directory_contents_impl (dirExists accessOk : Bool) (dirPath : String)
    (entries : List DirEntry) : String :=
  if dirExists = false then
    "Error: Directory \x27" ++ dirPath ++ "\x27 not found."
  else if accessOk = false then
    "Error: Could not access directory contents."
  else
    let lines := listingLines entries
    if lines = [] then
      "No video files found in directory \x27" ++ dirPath ++ "\x27."
    else
      "Video files in \x27" ++ baseName dirPath ++ "\x27:\n" ++ joinSep "\n\n" lines

end Cadence

namespace Cadence

/-! ### Parser lemmas -/

/-- Evaluation bridge: a successful field extraction determines the
parsed second count. -/
theorem parse_time_eval (t : String) (h m s ms : ℤ)
    (hf : ViewTool.parse_time_fields t = some (h, m, s, ms)) :
    ViewTool.parse_time_to_seconds t = some (secondsOf h m s ms) := by
  unfold ViewTool.parse_time_to_seconds
  rw [hf]
  rfl

/-- Evaluation bridge for failing field extraction. -/
theorem parse_time_eval_none (t : String)
    (hf : ViewTool.parse_time_fields t = none) :
    ViewTool.parse_time_to_seconds t = none := by
  unfold ViewTool.parse_time_to_seconds
  rw [hf]
  rfl

/-- The components of a timecode that the parser actually converts with
`int`: both colon segments before the last, then the first one or two
dot fragments of the last colon segment. -/
def fracComponents (p : List Char) : List (List Char) :=
  match splitOnChar '.' p with
  | [] => []
  | [s0] => [s0]
  | s0 :: s1 :: _ => [s0, s1]

/-- All components consumed by the parser for a given input string. -/
def consumedComponents (t : String) : List (List Char) :=
  match splitOnChar ':' t.data with
  | [p0] => fracComponents p0
  | [p0, p1] => p0 :: fracComponents p1
  | [p0, p1, p2] => p0 :: p1 :: fracComponents p2
  | _ => []

/-- A failing consumed fraction component makes `parseFrac` fail. -/
theorem parseFrac_eq_none (p : List Char)
    (hc : ∃ c ∈ fracComponents p, pyIntChars c = none) :
    parseFrac p = none := by
  unfold parseFrac
  unfold fracComponents at hc
  rcases hsp : splitOnChar '.' p with _ | ⟨s0, _ | ⟨s1, rest⟩⟩ <;>
    rw [hsp] at hc <;> simp at hc <;> simp
  · exact hc
  · rcases hc with h0 | h1
    · rw [h0]
    · rw [h1]
      cases pyIntChars s0 <;> simp

end Cadence

namespace Cadence

/-- A failing consumed component makes field extraction fail. -/
theorem parse_time_fields_eq_none (t : String)
    (hc : ∃ c ∈ consumedComponents t, pyIntChars c = none) :
    ViewTool.parse_time_fields t = none := by
  unfold ViewTool.parse_time_fields
  unfold consumedComponents at hc
  rcases hsp : splitOnChar ':' t.data with _ | ⟨p0, _ | ⟨p1, _ | ⟨p2, _ | ⟨p3, rest⟩⟩⟩⟩ <;>
    rw [hsp] at hc <;> simp at hc ⊢
  · rw [parseFrac_eq_none p0 hc]
    try rfl
  · rcases hc with h0 | h1
    · rw [h0]
      try rfl
    · rw [parseFrac_eq_none p1 h1]
      cases pyIntChars p0 <;> rfl
  · rcases hc with h0 | h1 | h2
    · rw [h0]
      try rfl
    · rw [h1]
      cases pyIntChars p0 <;> rfl
    · rw [parseFrac_eq_none p2 h2]
      cases pyIntChars p0 <;> cases pyIntChars p1 <;> rfl

/-- A wrong colon-segment count makes field extraction fail. -/
theorem parse_time_fields_eq_none_of_count (t : String)
    (hc : 4 ≤ (splitOnChar ':' t.data).length) :
    ViewTool.parse_time_fields t = none := by
  unfold ViewTool.parse_time_fields
  rcases hsp : splitOnChar ':' t.data with _ | ⟨p0, _ | ⟨p1, _ | ⟨p2, _ | ⟨p3, rest⟩⟩⟩⟩ <;>
    rw [hsp] at hc <;> simp at hc ⊢

end Cadence

namespace Cadence

/-! ### Claim C10 — the three duplicated parsers agree -/

/-- C10: For every string input, the three duplicated timecode parsers —
the one in view_tool, the one in ffmpeg_utils, and the import-failure
fallback in save_video_segment_tool — return exactly the same result:
the same second count, or all fail.  (The three Python bodies are
line-for-line identical; their embeddings are definitionally equal.) -/
theorem parse_time_duplicates_agree (t : String) :
    ViewTool.parse_time_to_seconds t = FfmpegUtils.parse_time_to_seconds t ∧
    ViewTool.parse_time_to_seconds t = SaveTool.parse_time_to_seconds t :=
  ⟨rfl, rfl⟩

/-! ### Claim C3 — malformed timecodes -/

/-- C3 counterexample: `"1.2.3"` has a malformed fractional part (two
dots), yet both cited parser copies return a numeric value: only the
first dot fragment is read, so the result is `1 + 2/1000 = 501/500`
seconds instead of a parse failure. -/
theorem timecode_extra_dot_accepted :
    ViewTool.parse_time_to_seconds "1.2.3" = some (501 / 500) ∧
    FfmpegUtils.parse_time_to_seconds "1.2.3" = some (501 / 500) := by
  have hv : ViewTool.parse_time_fields "1.2.3" = some (0, 0, 1, 2) := by decide
  have hf : FfmpegUtils.parse_time_fields "1.2.3" = some (0, 0, 1, 2) := by decide
  constructor
  · unfold ViewTool.parse_time_to_seconds
    rw [hv]
    norm_num [secondsOf]
  · unfold FfmpegUtils.parse_time_to_seconds
    rw [hf]
    norm_num [secondsOf]

/-- C3 amended: the parser fails on the empty string, on any wrong
colon-segment count, and whenever one of the components it consumes is
not an integer literal (so it never silently defaults); however a
fractional part containing extra dots is not rejected — fragments after
the first dot are silently ignored, e.g. `"1.2.3"` parses to `1.002`
seconds. -/
theorem timecode_malformed_fails :
    ViewTool.parse_time_to_seconds "" = none ∧
    (∀ t, 4 ≤ (splitOnChar ':' t.data).length →
      ViewTool.parse_time_to_seconds t = none) ∧
    (∀ t, (∃ c ∈ consumedComponents t, pyIntChars c = none) →
      ViewTool.parse_time_to_seconds t = none) ∧
    ViewTool.parse_time_to_seconds "1.2.3" = some (501 / 500) := by
  refine ⟨?_, ?_, ?_, ?_⟩
  · exact parse_time_eval_none "" (by decide)
  · intro t ht
    exact parse_time_eval_none t (parse_time_fields_eq_none_of_count t ht)
  · intro t ht
    exact parse_time_eval_none t (parse_time_fields_eq_none t ht)
  · have hv : ViewTool.parse_time_fields "1.2.3" = some (0, 0, 1, 2) := by decide
    unfold ViewTool.parse_time_to_seconds
    rw [hv]
    norm_num [secondsOf]

/-- Witness for `timecode_malformed_fails` at concrete malformed
inputs: a four-segment timecode and a non-numeric component. -/
theorem timecode_malformed_fails_witness :
    ViewTool.parse_time_to_seconds "1:2:3:4" = none ∧
    ViewTool.parse_time_to_seconds "ab:07" = none := by
  constructor
  · exact timecode_malformed_fails.2.1 "1:2:3:4" (by decide)
  · exact timecode_malformed_fails.2.2.1 "ab:07" ⟨"ab".data, by decide, by decide⟩

end Cadence

namespace Cadence

/-! ### Structural lemmas about the samplers -/

/-- The effective frame count is always at least one. -/
theorem effectiveNumFrames_pos (numFrames : Option ℤ) :
    1 ≤ effectiveNumFrames numFrames := by
  unfold effectiveNumFrames
  cases numFrames with
  | none => norm_num
  | some k =>
    by_cases h : k ≤ 0 <;> simp [h] <;> omega

/-- Every quality tier maps to a positive target width. -/
theorem qualityTargetWidth_pos (qualityLevel : String) :
    0 < qualityTargetWidth qualityLevel := by
  unfold qualityTargetWidth
  split_ifs <;> norm_num

/-- The frame sampler never returns more frames than requested. -/
theorem extract_frames_frames_length (env : MediaEnv) (startSec endSec : ℚ)
    (numFrames : ℤ) (qualityLevel : String) :
    (extract_frames env startSec endSec numFrames qualityLevel).frames.length ≤
      numFrames.toNat := by
  unfold extract_frames
  by_cases h1 : env.fileExists = false
  · simp [h1]
  rw [if_neg h1]
  by_cases h2 : numFrames ≤ 0
  · rw [if_pos h2]
    simp
  rw [if_neg h2]
  by_cases h3 : startSec < 0 ∨ endSec < startSec
  · rw [if_pos h3]
    simp
  rw [if_neg h3]
  push_neg at h3
  have h4 : ¬(endSec - startSec < 0) := by
    rw [not_lt, sub_nonneg]
    exact h3.2
  dsimp only
  rw [if_neg h4]
  by_cases h5 : numFrames = 1
  · rw [if_pos h5]
    unfold runSingleFrame
    cases env.singleFrame startSec (scaleFilterOf env.metadata qualityLevel) <;> simp [h5]
  rw [if_neg h5]
  by_cases h6 : endSec - startSec ≤ 1 / 1000
  · rw [if_pos h6]
    unfold runSingleFrame
    cases env.singleFrame startSec (scaleFilterOf env.metadata qualityLevel) <;> simp <;> omega
  · rw [if_neg h6]
    simp

end Cadence

namespace Cadence

/-! ### Claim C7 — save rejects non-positive-length ranges -/

/-- C7: Every `save_video_segment_impl` call whose parsed end time is
not strictly after the parsed start time (`end <= start`, checked
before any clamping) fails with the invalid-order validation error;
no trim invocation is issued, so no output video file is written. -/
theorem save_rejects_end_not_after_start (env : SaveEnv) (startTime endTime outName : String)
    (s e : ℚ)
    (hmk : env.mkdirOk = true) (hsrc : env.sourceExists = true)
    (hs : ViewTool.parse_time_to_seconds startTime = some s)
    (he : ViewTool.parse_time_to_seconds endTime = some e)
    (h0s : 0 ≤ s) (h0e : 0 ≤ e) (hes : e ≤ s) :
    save_video_segment_impl env startTime endTime outName =
      ⟨.err .endNotAfterStart, none, none⟩ := by
  unfold save_video_segment_impl
  rw [hmk, hsrc, hs, he]
  have hneg : ¬(s < 0 ∨ e < 0) := by
    push_neg
    exact ⟨h0s, h0e⟩
  simp [hneg, hes]

/-- Witness for `save_rejects_end_not_after_start`: the spec scenario
start `00:00:05`, end `00:00:02`. -/
theorem save_rejects_end_not_after_start_witness :
    save_video_segment_impl ⟨true, true, some ⟨10, 1920, 1080, 30, true⟩, true⟩
      "00:00:05" "00:00:02" "clip.mp4" = ⟨.err .endNotAfterStart, none, none⟩ := by
  have hs : ViewTool.parse_time_to_seconds "00:00:05" = some (secondsOf 0 0 5 0) :=
    parse_time_eval _ 0 0 5 0 (by decide)
  have he : ViewTool.parse_time_to_seconds "00:00:02" = some (secondsOf 0 0 2 0) :=
    parse_time_eval _ 0 0 2 0 (by decide)
  exact save_rejects_end_not_after_start _ _ _ _ _ _ rfl rfl hs he
    (by norm_num [secondsOf]) (by norm_num [secondsOf]) (by norm_num [secondsOf])

end Cadence

namespace Cadence

/-! ### Shared validation-stage lemmas -/

/-- When both times parse, are admissible, and the probed duration is
at or below the parsed start, the save tool stops with the
start-beyond-duration error before reaching ffmpeg. -/
theorem save_start_beyond_aux (env : SaveEnv) (startTime endTime outName : String)
    (s e : ℚ) (m : VideoMetadata)
    (hmk : env.mkdirOk = true) (hsrc : env.sourceExists = true)
    (hs : ViewTool.parse_time_to_seconds startTime = some s)
    (he : ViewTool.parse_time_to_seconds endTime = some e)
    (h0s : 0 ≤ s) (h0e : 0 ≤ e) (hse : s < e)
    (hmd : env.metadata = some m)
    (hds : m.duration_seconds ≤ s) :
    save_video_segment_impl env startTime endTime outName =
      ⟨.err .startBeyondDuration, none, none⟩ := by
  unfold save_video_segment_impl
  rw [hmk, hsrc, hs, he, hmd]
  have hneg : ¬(s < 0 ∨ e < 0) := by
    push_neg
    exact ⟨h0s, h0e⟩
  have hnes : ¬ e ≤ s := not_le.mpr hse
  simp [hneg, hnes, hds]

/-- When both times parse, are admissible, and the parsed start is
strictly beyond the probed duration, the view tool stops with the
start-beyond-duration error before any extraction. -/
theorem view_start_beyond_aux (env : MediaEnv) (startTime endTime : String)
    (numFrames : Option ℤ) (quality : Option String) (s e : ℚ) (m : VideoMetadata)
    (hex : env.fileExists = true)
    (hs : ViewTool.parse_time_to_seconds startTime = some s)
    (he : ViewTool.parse_time_to_seconds endTime = some e)
    (h0s : 0 ≤ s) (h0e : 0 ≤ e) (hse : ¬ e < s)
    (hmd : env.metadata = some m)
    (hds : m.duration_seconds < s) :
    view_video_segment_impl env startTime endTime numFrames quality =
      ⟨.err .startBeyondDuration, [], [], none, none⟩ := by
  unfold view_video_segment_impl
  rw [hex, hs, he, hmd]
  have hneg : ¬(s < 0 ∨ e < 0) := by
    push_neg
    exact ⟨h0s, h0e⟩
  simp [hneg, hse, hds]

/-- Shape of the view tool result once every validation check has
passed: frames over the clamped range, at most one audio slice, and a
success/partial-success status. -/
theorem view_validated (env : MediaEnv) (startTime endTime : String)
    (numFrames : Option ℤ) (quality : Option String) (s e : ℚ) (m : VideoMetadata)
    (hex : env.fileExists = true)
    (hs : ViewTool.parse_time_to_seconds startTime = some s)
    (he : ViewTool.parse_time_to_seconds endTime = some e)
    (h0s : 0 ≤ s) (h0e : 0 ≤ e) (hse : ¬ e < s)
    (hmd : env.metadata = some m)
    (hds : ¬ m.duration_seconds < s) :
    view_video_segment_impl env startTime endTime numFrames quality =
      (let fr := extract_frames env s (min e m.duration_seconds)
        (effectiveNumFrames numFrames) (effectiveQuality quality)
       let au := if 0 ≤ min e m.duration_seconds - s ∧ m.has_audio = true
                 then extract_audio_segment env s (min e m.duration_seconds)
                 else ⟨none, none⟩
       let audios := match au.bytes with | some b => [b] | none => []
       ⟨if fr.frames ≠ [] ∨ audios ≠ [] then .ok else .okNoMedia,
        fr.frames, audios, fr.cmd, au.cmd⟩) := by
  unfold view_video_segment_impl
  rw [hex, hs, he, hmd]
  have hneg : ¬(s < 0 ∨ e < 0) := by
    push_neg
    exact ⟨h0s, h0e⟩
  simp [hneg, hse, hds]

end Cadence

namespace Cadence

/-! ### Claim C2 — start at or beyond the probed duration -/

/-- Demo sampling environment: a five-second source with no audio and
unknown (zero) width whose engine yields frame `7` for single-frame
invocations and writes no files for fps-filtered invocations. -/
def demoMediaEnv : MediaEnv where
  fileExists := true
  metadata := some ⟨5, 0, 0, 0, false⟩
  singleFrame := fun _ _ => some 7
  producedCount := fun _ _ _ _ => 0
  frameFile := fun i => i
  audioBytes := fun _ _ => none

/-- C2 counterexample: with a probed duration of 5.0s, a sampling
request starting exactly at `00:00:05` is *not* rejected — the view
tool only rejects `start > duration`, so the request proceeds all the
way to a single-frame engine invocation at 5.0s and returns success.
This falsifies the claim that a start exactly equal to the duration
fails with a start-beyond-duration error before any extraction. -/
theorem sampling_start_at_duration_proceeds :
    view_video_segment_impl demoMediaEnv "00:00:05" "00:00:07" none none =
      ⟨.ok, [7], [], some (.single 5 none none), none⟩ := by
  have hs : ViewTool.parse_time_to_seconds "00:00:05" = some 5 := by
    rw [parse_time_eval _ 0 0 5 0 (by decide)]
    norm_num [secondsOf]
  have he : ViewTool.parse_time_to_seconds "00:00:07" = some 7 := by
    rw [parse_time_eval _ 0 0 7 0 (by decide)]
    norm_num [secondsOf]
  have hmin : min (7 : ℚ) 5 = 5 := by norm_num
  rw [view_validated demoMediaEnv _ _ none none 5 7 ⟨5, 0, 0, 0, false⟩ rfl hs he
    (by norm_num) (by norm_num) (by norm_num) rfl (by norm_num)]
  have hext : extract_frames demoMediaEnv 5 5 (effectiveNumFrames none)
      (effectiveQuality none) = ⟨[7], some (.single 5 none none)⟩ := by
    unfold extract_frames runSingleFrame effectiveNumFrames effectiveQuality
    simp [demoMediaEnv, scaleFilterOf]
  dsimp only
  rw [hmin, hext]
  simp

/-- C2 amended: rejection of a start at or beyond the probed duration
differs between the two tools.  The trimmer rejects `start >= duration`
(start equal to the duration included) with its start-beyond-duration
error and issues no trim command; the sampler rejects only
`start > duration` strictly, and a sampling start exactly equal to the
duration passes validation and proceeds (the result status is success
or partial success, never an error). -/
theorem start_beyond_duration_policy :
    (∀ (env : SaveEnv) (startTime endTime outName : String) (s e : ℚ) (m : VideoMetadata),
      env.mkdirOk = true → env.sourceExists = true →
      ViewTool.parse_time_to_seconds startTime = some s →
      ViewTool.parse_time_to_seconds endTime = some e →
      0 ≤ s → 0 ≤ e → s < e → env.metadata = some m → m.duration_seconds ≤ s →
      save_video_segment_impl env startTime endTime outName =
        ⟨.err .startBeyondDuration, none, none⟩) ∧
    (∀ (env : MediaEnv) (startTime endTime : String) (numFrames : Option ℤ)
        (quality : Option String) (s e : ℚ) (m : VideoMetadata),
      env.fileExists = true →
      ViewTool.parse_time_to_seconds startTime = some s →
      ViewTool.parse_time_to_seconds endTime = some e →
      0 ≤ s → 0 ≤ e → ¬ e < s → env.metadata = some m → m.duration_seconds < s →
      view_video_segment_impl env startTime endTime numFrames quality =
        ⟨.err .startBeyondDuration, [], [], none, none⟩) ∧
    (∀ (env : MediaEnv) (startTime endTime : String) (numFrames : Option ℤ)
        (quality : Option String) (e : ℚ) (m : VideoMetadata),
      env.fileExists = true →
      ViewTool.parse_time_to_seconds startTime = some m.duration_seconds →
      ViewTool.parse_time_to_seconds endTime = some e →
      0 ≤ m.duration_seconds → 0 ≤ e → ¬ e < m.duration_seconds →
      env.metadata = some m →
      ((view_video_segment_impl env startTime endTime numFrames quality).status =
          .ok ∨
        (view_video_segment_impl env startTime endTime numFrames quality).status =
          .okNoMedia)) := by
  refine ⟨?_, ?_, ?_⟩
  · intro env startTime endTime outName s e m hmk hsrc hs he h0s h0e hse hmd hds
    exact save_start_beyond_aux env startTime endTime outName s e m hmk hsrc hs he
      h0s h0e hse hmd hds
  · intro env startTime endTime numFrames quality s e m hex hs he h0s h0e hse hmd hds
    exact view_start_beyond_aux env startTime endTime numFrames quality s e m hex hs he
      h0s h0e hse hmd hds
  · intro env startTime endTime numFrames quality e m hex hs he h0s h0e hse hmd
    rw [view_validated env startTime endTime numFrames quality m.duration_seconds e m
      hex hs he h0s h0e hse hmd (lt_irrefl _)]
    dsimp only
    split_ifs <;> simp

/-- Witness for `start_beyond_duration_policy`: a ten-second source, a
trim request starting at `00:00:12`, a sampling request starting at
`00:00:12`, and a sampling request starting exactly at `00:00:10`. -/
theorem start_beyond_duration_policy_witness :
    save_video_segment_impl ⟨true, true, some ⟨10, 0, 0, 0, false⟩, true⟩
        "00:00:12" "00:00:14" "clip.mp4" =
      ⟨.err .startBeyondDuration, none, none⟩ ∧
    view_video_segment_impl demoMediaEnv "00:00:07" "00:00:09" none none =
      ⟨.err .startBeyondDuration, [], [], none, none⟩ ∧
    ((view_video_segment_impl demoMediaEnv "00:00:05" "00:00:06" none none).status =
        .ok ∨
      (view_video_segment_impl demoMediaEnv "00:00:05" "00:00:06" none none).status =
        .okNoMedia) := by
  have h5 : ViewTool.parse_time_to_seconds "00:00:05" = some 5 := by
    rw [parse_time_eval _ 0 0 5 0 (by decide)]
    norm_num [secondsOf]
  have h6 : ViewTool.parse_time_to_seconds "00:00:06" = some 6 := by
    rw [parse_time_eval _ 0 0 6 0 (by decide)]
    norm_num [secondsOf]
  have h7 : ViewTool.parse_time_to_seconds "00:00:07" = some 7 := by
    rw [parse_time_eval _ 0 0 7 0 (by decide)]
    norm_num [secondsOf]
  have h9 : ViewTool.parse_time_to_seconds "00:00:09" = some 9 := by
    rw [parse_time_eval _ 0 0 9 0 (by decide)]
    norm_num [secondsOf]
  have h12 : ViewTool.parse_time_to_seconds "00:00:12" = some 12 := by
    rw [parse_time_eval _ 0 0 12 0 (by decide)]
    norm_num [secondsOf]
  have h14 : ViewTool.parse_time_to_seconds "00:00:14" = some 14 := by
    rw [parse_time_eval _ 0 0 14 0 (by decide)]
    norm_num [secondsOf]
  refine ⟨?_, ?_, ?_⟩
  · exact start_beyond_duration_policy.1 _ _ _ _ 12 14 ⟨10, 0, 0, 0, false⟩ rfl rfl
      h12 h14 (by norm_num) (by norm_num) (by norm_num) rfl (by norm_num)
  · exact start_beyond_duration_policy.2.1 demoMediaEnv _ _ none none 7 9
      ⟨5, 0, 0, 0, false⟩ rfl h7 h9 (by norm_num) (by norm_num) (by norm_num) rfl
      (by norm_num)
  · exact start_beyond_duration_policy.2.2 demoMediaEnv _ _ none none 6
      ⟨5, 0, 0, 0, false⟩ rfl h5 h6 (by norm_num) (by norm_num) (by norm_num) rfl

end Cadence

namespace Cadence

/-! ### Claim C1 — end-beyond-duration clamping -/

/-- C1 counterexample: a 5.0s source, start `00:00:05`, end `00:00:07`.
The parsed end (7.0) exceeds the duration and the clamp
`min(end, duration) = 5.0` leaves the range with end no greater than
start, yet the save tool does not fail with its collapse error: the
`start >= duration` check fires first, so the result carries the
start-beyond-duration error — a different error constructor than the
collapse one the claim names (the dedicated collapse branch is
unreachable whenever metadata is available). -/
theorem save_collapse_error_not_raised :
    ViewTool.parse_time_to_seconds "00:00:05" = some 5 ∧
    ViewTool.parse_time_to_seconds "00:00:07" = some 7 ∧
    (5 : ℚ) < 7 ∧ min (7 : ℚ) 5 ≤ 5 ∧
    save_video_segment_impl ⟨true, true, some ⟨5, 0, 0, 0, false⟩, true⟩
        "00:00:05" "00:00:07" "clip.mp4" =
      ⟨.err .startBeyondDuration, none, none⟩ ∧
    SaveErr.startBeyondDuration ≠ SaveErr.collapsedAfterClamp := by
  have hs : ViewTool.parse_time_to_seconds "00:00:05" = some 5 := by
    rw [parse_time_eval _ 0 0 5 0 (by decide)]
    norm_num [secondsOf]
  have he : ViewTool.parse_time_to_seconds "00:00:07" = some 7 := by
    rw [parse_time_eval _ 0 0 7 0 (by decide)]
    norm_num [secondsOf]
  refine ⟨hs, he, by norm_num, by norm_num, ?_, by simp⟩
  exact save_start_beyond_aux _ _ _ _ 5 7 ⟨5, 0, 0, 0, false⟩ rfl rfl hs he
    (by norm_num) (by norm_num) (by norm_num) rfl (by norm_num)

/-- C1 amended: for every request whose parsed end exceeds the probed
duration, the sampling operation clamps the end to the duration and
proceeds (its frames are exactly those extracted over
`[start, duration]`, and its status is success or partial success —
never an error), while the save tool, whenever the clamp would leave
the range with end no greater than start, fails and writes no output —
but with the start-at-or-beyond-duration error rather than the
dedicated collapse error, whose branch is preempted by the earlier
`start >= duration` check. -/
theorem end_beyond_duration_clamp_policy :
    (∀ (env : MediaEnv) (startTime endTime : String) (numFrames : Option ℤ)
        (quality : Option String) (s e : ℚ) (m : VideoMetadata),
      env.fileExists = true →
      ViewTool.parse_time_to_seconds startTime = some s →
      ViewTool.parse_time_to_seconds endTime = some e →
      0 ≤ s → 0 ≤ e → ¬ e < s → env.metadata = some m →
      ¬ m.duration_seconds < s → m.duration_seconds < e →
      ((view_video_segment_impl env startTime endTime numFrames quality).images =
          (extract_frames env s m.duration_seconds (effectiveNumFrames numFrames)
            (effectiveQuality quality)).frames ∧
        ((view_video_segment_impl env startTime endTime numFrames quality).status =
            .ok ∨
          (view_video_segment_impl env startTime endTime numFrames quality).status =
            .okNoMedia))) ∧
    (∀ (env : SaveEnv) (startTime endTime outName : String) (s e : ℚ) (m : VideoMetadata),
      env.mkdirOk = true → env.sourceExists = true →
      ViewTool.parse_time_to_seconds startTime = some s →
      ViewTool.parse_time_to_seconds endTime = some e →
      0 ≤ s → 0 ≤ e → s < e → env.metadata = some m →
      m.duration_seconds < e → min e m.duration_seconds ≤ s →
      save_video_segment_impl env startTime endTime outName =
        ⟨.err .startBeyondDuration, none, none⟩) := by
  constructor
  · intro env startTime endTime numFrames quality s e m hex hs he h0s h0e hse hmd hds hde
    have hmin : min e m.duration_seconds = m.duration_seconds :=
      min_eq_right (le_of_lt hde)
    rw [view_validated env startTime endTime numFrames quality s e m hex hs he
      h0s h0e hse hmd hds]
    dsimp only
    rw [hmin]
    refine ⟨rfl, ?_⟩
    split_ifs <;> simp
  · intro env startTime endTime outName s e m hmk hsrc hs he h0s h0e hse hmd hde hcl
    have hds : m.duration_seconds ≤ s := by
      rw [min_eq_right (le_of_lt hde)] at hcl
      exact hcl
    exact save_start_beyond_aux env startTime endTime outName s e m hmk hsrc hs he
      h0s h0e hse hmd hds

/-- Witness for `end_beyond_duration_clamp_policy`: sampling
`00:00:02 → 00:00:07` against the 5.0s demo source (end clamps to 5.0),
and trimming `00:00:05 → 00:00:07` against a 5.0s source. -/
theorem end_beyond_duration_clamp_policy_witness :
    ((view_video_segment_impl demoMediaEnv "00:00:02" "00:00:07" none none).images =
        (extract_frames demoMediaEnv 2 5 (effectiveNumFrames none)
          (effectiveQuality none)).frames ∧
      ((view_video_segment_impl demoMediaEnv "00:00:02" "00:00:07" none none).status =
          .ok ∨
        (view_video_segment_impl demoMediaEnv "00:00:02" "00:00:07" none none).status =
          .okNoMedia)) ∧
    save_video_segment_impl ⟨true, true, some ⟨5, 0, 0, 0, false⟩, true⟩
        "00:00:05" "00:00:07" "clip.mp4" =
      ⟨.err .startBeyondDuration, none, none⟩ := by
  have h2 : ViewTool.parse_time_to_seconds "00:00:02" = some 2 := by
    rw [parse_time_eval _ 0 0 2 0 (by decide)]
    norm_num [secondsOf]
  have h5 : ViewTool.parse_time_to_seconds "00:00:05" = some 5 := by
    rw [parse_time_eval _ 0 0 5 0 (by decide)]
    norm_num [secondsOf]
  have h7 : ViewTool.parse_time_to_seconds "00:00:07" = some 7 := by
    rw [parse_time_eval _ 0 0 7 0 (by decide)]
    norm_num [secondsOf]
  constructor
  · exact end_beyond_duration_clamp_policy.1 demoMediaEnv _ _ none none 2 7
      ⟨5, 0, 0, 0, false⟩ rfl h2 h7 (by norm_num) (by norm_num) (by norm_num) rfl
      (by norm_num) (by norm_num)
  · exact end_beyond_duration_clamp_policy.2 _ _ _ _ 5 7 ⟨5, 0, 0, 0, false⟩ rfl rfl
      h5 h7 (by norm_num) (by norm_num) (by norm_num) rfl (by norm_num) (by norm_num)

end Cadence

namespace Cadence

/-- A single-frame run always records its invocation. -/
theorem runSingleFrame_cmd (env : MediaEnv) (seek : ℚ) (stop : Option ℚ)
    (scaleF : Option ℕ) :
    (runSingleFrame env seek stop scaleF).cmd = some (.single seek stop scaleF) := by
  unfold runSingleFrame
  cases env.singleFrame seek scaleF <;> rfl

/-- A non-positive span makes the audio slicer return no audio without
invoking the engine. -/
theorem extract_audio_zero_span (env : MediaEnv) (startSec endSec : ℚ)
    (h : endSec - startSec ≤ 0) :
    extract_audio_segment env startSec endSec = ⟨none, none⟩ := by
  unfold extract_audio_segment
  by_cases h1 : env.fileExists = false
  · rw [if_pos h1]
  rw [if_neg h1]
  by_cases h2 : startSec < 0 ∨ endSec < startSec
  · rw [if_pos h2]
  rw [if_neg h2, if_pos h]

/-! ### Claim C4 — single-instant fallback -/

/-- C4: For every sampling request with frame count 1, or whose range
duration is at most a millisecond, `extract_frames` issues exactly one
single-frame engine invocation seeking to `start_seconds` — regardless
of the requested count — and (the invocation succeeding) returns
exactly that one frame.  The emitted frame is `singleFrame start scale`,
which does not depend on the end time: a `-vframes 1` run outputs the
first frame at/after its seek point, and the near-zero-span fallback
drops the end bound from the command entirely. -/
theorem single_instant_fallback (env : MediaEnv) (startSec endSec : ℚ) (numFrames : ℤ)
    (qualityLevel : String) (f : ℕ)
    (hex : env.fileExists = true)
    (h0 : 0 ≤ startSec) (hse : startSec ≤ endSec)
    (hn : 1 ≤ numFrames)
    (hcase : numFrames = 1 ∨ endSec - startSec ≤ 1 / 1000)
    (hf : env.singleFrame startSec (scaleFilterOf env.metadata qualityLevel) = some f) :
    (extract_frames env startSec endSec numFrames qualityLevel).frames = [f] ∧
    ∃ stop, (extract_frames env startSec endSec numFrames qualityLevel).cmd =
      some (.single startSec stop (scaleFilterOf env.metadata qualityLevel)) := by
  unfold extract_frames
  have h1 : ¬(env.fileExists = false) := by
    rw [hex]
    simp
  rw [if_neg h1]
  have h2 : ¬(numFrames ≤ 0) := by omega
  rw [if_neg h2]
  have h3 : ¬(startSec < 0 ∨ endSec < startSec) := by
    push_neg
    exact ⟨h0, hse⟩
  rw [if_neg h3]
  have h4 : ¬(endSec - startSec < 0) := by
    rw [not_lt, sub_nonneg]
    exact hse
  dsimp only
  rw [if_neg h4]
  by_cases h5 : numFrames = 1
  · rw [if_pos h5]
    unfold runSingleFrame
    rw [hf]
    exact ⟨rfl, some endSec, rfl⟩
  · rcases hcase with h5x | h6
    · exact absurd h5x h5
    · rw [if_neg h5, if_pos h6]
      unfold runSingleFrame
      rw [hf]
      exact ⟨rfl, none, rfl⟩

/-- Witness for `single_instant_fallback`: a zero-length range
`[2.0, 2.0]` with five frames requested still yields the one frame the
engine emits at 2.0s. -/
theorem single_instant_fallback_witness :
    (extract_frames demoMediaEnv 2 2 5 "low").frames = [7] ∧
    ∃ stop, (extract_frames demoMediaEnv 2 2 5 "low").cmd =
      some (.single 2 stop (scaleFilterOf demoMediaEnv.metadata "low")) :=
  single_instant_fallback demoMediaEnv 2 2 5 "low" 7 rfl (by norm_num) (by norm_num)
    (by norm_num) (Or.inr (by norm_num)) rfl

end Cadence

namespace Cadence

/-! ### Claim C6 — absent audio is success, not an error -/

/-- C6: For every sampling request against a source with no audio
track, or whose clamped range has non-positive duration, the view tool
returns success (or partial success) with an empty audio payload and no
audio engine invocation; the frame payload is still exactly what the
frame extractor produced over the clamped range. -/
theorem missing_audio_is_success (env : MediaEnv) (startTime endTime : String)
    (numFrames : Option ℤ) (quality : Option String) (s e : ℚ) (m : VideoMetadata)
    (hex : env.fileExists = true)
    (hs : ViewTool.parse_time_to_seconds startTime = some s)
    (he : ViewTool.parse_time_to_seconds endTime = some e)
    (h0s : 0 ≤ s) (h0e : 0 ≤ e) (hse : ¬ e < s)
    (hmd : env.metadata = some m)
    (hds : ¬ m.duration_seconds < s)
    (hau : m.has_audio = false ∨ min e m.duration_seconds - s ≤ 0) :
    (view_video_segment_impl env startTime endTime numFrames quality).audios = [] ∧
    (view_video_segment_impl env startTime endTime numFrames quality).audioCmd = none ∧
    (view_video_segment_impl env startTime endTime numFrames quality).images =
      (extract_frames env s (min e m.duration_seconds) (effectiveNumFrames numFrames)
        (effectiveQuality quality)).frames ∧
    ((view_video_segment_impl env startTime endTime numFrames quality).status = .ok ∨
      (view_video_segment_impl env startTime endTime numFrames quality).status =
        .okNoMedia) := by
  rw [view_validated env startTime endTime numFrames quality s e m hex hs he h0s h0e
    hse hmd hds]
  dsimp only
  rcases hau with hau | hau
  · rw [if_neg (by simp [hau])]
    refine ⟨rfl, rfl, rfl, ?_⟩
    split_ifs <;> simp
  · by_cases hc : 0 ≤ min e m.duration_seconds - s ∧ m.has_audio = true
    · rw [if_pos hc, extract_audio_zero_span env _ _ hau]
      refine ⟨rfl, rfl, rfl, ?_⟩
      split_ifs <;> simp
    · rw [if_neg hc]
      refine ⟨rfl, rfl, rfl, ?_⟩
      split_ifs <;> simp

/-- Witness for `missing_audio_is_success`: sampling `[1.0, 3.0]` of
the audio-less 5.0s demo source. -/
theorem missing_audio_is_success_witness :
    (view_video_segment_impl demoMediaEnv "00:00:01" "00:00:03" none none).audios = [] ∧
    (view_video_segment_impl demoMediaEnv "00:00:01" "00:00:03" none none).audioCmd =
      none ∧
    (view_video_segment_impl demoMediaEnv "00:00:01" "00:00:03" none none).images =
      (extract_frames demoMediaEnv 1 (min 3 (5 : ℚ)) (effectiveNumFrames none)
        (effectiveQuality none)).frames ∧
    ((view_video_segment_impl demoMediaEnv "00:00:01" "00:00:03" none none).status =
        .ok ∨
      (view_video_segment_impl demoMediaEnv "00:00:01" "00:00:03" none none).status =
        .okNoMedia) := by
  have h1 : ViewTool.parse_time_to_seconds "00:00:01" = some 1 := by
    rw [parse_time_eval _ 0 0 1 0 (by decide)]
    norm_num [secondsOf]
  have h3 : ViewTool.parse_time_to_seconds "00:00:03" = some 3 := by
    rw [parse_time_eval _ 0 0 3 0 (by decide)]
    norm_num [secondsOf]
  exact missing_audio_is_success demoMediaEnv _ _ none none 1 3 ⟨5, 0, 0, 0, false⟩
    rfl h1 h3 (by norm_num) (by norm_num) (by norm_num) rfl (by norm_num) (Or.inl rfl)

end Cadence

namespace Cadence

/-! ### Claim C8 — quality tiers and downscale-only scaling -/

/-- Evaluation of the invocation issued for a concrete zero-span
request against the demo environment. -/
theorem demo_single_cmd_eval :
    (extract_frames demoMediaEnv 2 2 5 "low").cmd = some (.single 2 none none) := by
  unfold extract_frames runSingleFrame
  simp [demoMediaEnv, scaleFilterOf]
  norm_num

/-- C8: the quality tiers low/medium/high map to target widths
640/1280/1920; against a successfully probed source, the scale filter
(`scale=target:-1`, aspect-ratio preserving) is attached iff the native
width strictly exceeds the target width — so frames are never upscaled
— and every engine invocation `extract_frames` issues carries exactly
this scale decision. -/
theorem quality_scaling_policy :
    (qualityTargetWidth "low" = 640 ∧ qualityTargetWidth "medium" = 1280 ∧
      qualityTargetWidth "high" = 1920) ∧
    (∀ (m : VideoMetadata) (qualityLevel : String),
      (scaleFilterOf (some m) qualityLevel = some (qualityTargetWidth qualityLevel) ↔
        qualityTargetWidth qualityLevel < m.width) ∧
      (scaleFilterOf (some m) qualityLevel = none ↔
        m.width ≤ qualityTargetWidth qualityLevel)) ∧
    (∀ (env : MediaEnv) (startSec endSec : ℚ) (numFrames : ℤ) (qualityLevel : String)
        (c : FrameCmd),
      (extract_frames env startSec endSec numFrames qualityLevel).cmd = some c →
      c.scaleOf = scaleFilterOf env.metadata qualityLevel) := by
  refine ⟨by decide, ?_, ?_⟩
  · intro m qualityLevel
    have hq := qualityTargetWidth_pos qualityLevel
    unfold scaleFilterOf
    dsimp only
    constructor
    · constructor
      · intro h
        by_cases hc : 0 < m.width ∧ qualityTargetWidth qualityLevel < m.width
        · exact hc.2
        · rw [if_neg hc] at h
          cases h
      · intro h
        rw [if_pos ⟨lt_trans hq h, h⟩]
    · constructor
      · intro h
        by_cases hc : 0 < m.width ∧ qualityTargetWidth qualityLevel < m.width
        · rw [if_pos hc] at h
          cases h
        · push_neg at hc
          rcases Nat.eq_zero_or_pos m.width with hw | hw
          · omega
          · have := hc hw
            omega
      · intro h
        rw [if_neg ?_]
        rintro ⟨_, h2⟩
        omega
  · intro env startSec endSec numFrames qualityLevel c hc
    unfold extract_frames at hc
    by_cases h1 : env.fileExists = false
    · rw [if_pos h1] at hc
      cases hc
    rw [if_neg h1] at hc
    by_cases h2 : numFrames ≤ 0
    · rw [if_pos h2] at hc
      cases hc
    rw [if_neg h2] at hc
    by_cases h3 : startSec < 0 ∨ endSec < startSec
    · rw [if_pos h3] at hc
      cases hc
    rw [if_neg h3] at hc
    dsimp only at hc
    by_cases h5 : numFrames = 1
    · rw [if_pos h5, runSingleFrame_cmd] at hc
      rw [Option.some_inj] at hc
      rw [← hc]
      rfl
    rw [if_neg h5] at hc
    by_cases h6 : (if endSec - startSec < 0 then 0 else endSec - startSec) ≤ 1 / 1000
    · rw [if_pos h6, runSingleFrame_cmd] at hc
      rw [Option.some_inj] at hc
      rw [← hc]
      rfl
    · rw [if_neg h6] at hc
      simp only [Option.some_inj] at hc
      rw [← hc]
      rfl

/-- Witness for `quality_scaling_policy`: a 1920-wide probed source at
the medium tier (downscaled to 1280) and at the high tier (left
unscaled), plus the scale decision carried by a concrete invocation. -/
theorem quality_scaling_policy_witness :
    (scaleFilterOf (some ⟨10, 1920, 1080, 30, true⟩) "medium" = some 1280 ∧
      scaleFilterOf (some ⟨10, 1920, 1080, 30, true⟩) "high" = none) ∧
    FrameCmd.scaleOf (.single 2 none none) = scaleFilterOf demoMediaEnv.metadata "low" := by
  constructor
  · constructor
    · exact ((quality_scaling_policy.2.1 ⟨10, 1920, 1080, 30, true⟩ "medium").1).mpr
        (by rw [quality_scaling_policy.1.2.1]; norm_num)
    · exact ((quality_scaling_policy.2.1 ⟨10, 1920, 1080, 30, true⟩ "high").2).mpr
        (by rw [quality_scaling_policy.1.2.2])
  · exact quality_scaling_policy.2.2 demoMediaEnv 2 2 5 "low" (.single 2 none none)
      demo_single_cmd_eval

end Cadence

namespace Cadence

/-! ### Claim C5 — frame-count bounds and short results -/

/-- C5: the effective frame count N is the caller count when positive
and 3 when omitted or non-positive; every sampling result carries
between 0 and N frames; and whenever validation passes, whatever the
engine produced (fewer than N frames included, zero included), the
result status is success or partial success — never an error. -/
theorem frame_count_bounds :
    (effectiveNumFrames none = 3 ∧
      (∀ k : ℤ, k ≤ 0 → effectiveNumFrames (some k) = 3) ∧
      (∀ k : ℤ, 0 < k → effectiveNumFrames (some k) = k)) ∧
    (∀ (env : MediaEnv) (startTime endTime : String) (numFrames : Option ℤ)
        (quality : Option String),
      (view_video_segment_impl env startTime endTime numFrames quality).images.length ≤
        (effectiveNumFrames numFrames).toNat) ∧
    (∀ (env : MediaEnv) (startTime endTime : String) (numFrames : Option ℤ)
        (quality : Option String) (s e : ℚ) (m : VideoMetadata),
      env.fileExists = true →
      ViewTool.parse_time_to_seconds startTime = some s →
      ViewTool.parse_time_to_seconds endTime = some e →
      0 ≤ s → 0 ≤ e → ¬ e < s → env.metadata = some m →
      ¬ m.duration_seconds < s →
      ((view_video_segment_impl env startTime endTime numFrames quality).status = .ok ∨
        (view_video_segment_impl env startTime endTime numFrames quality).status =
          .okNoMedia)) := by
  refine ⟨⟨rfl, ?_, ?_⟩, ?_, ?_⟩
  · intro k hk
    simp [effectiveNumFrames, hk]
  · intro k hk
    simp [effectiveNumFrames, not_le.mpr hk]
  · intro env startTime endTime numFrames quality
    unfold view_video_segment_impl
    dsimp only
    split
    · simp
    · split
      · simp
      · simp
      · split
        · simp
        split
        · simp
        split
        · simp
        split
        · simp
        dsimp only
        exact extract_frames_frames_length _ _ _ _ _
  · intro env startTime endTime numFrames quality s e m hex hs he h0s h0e hse hmd hds
    rw [view_validated env startTime endTime numFrames quality s e m hex hs he h0s
      h0e hse hmd hds]
    dsimp only
    split_ifs <;> simp

/-- Witness for `frame_count_bounds`: the defaulting rules at -2 and 5,
and a concrete request for five frames. -/
theorem frame_count_bounds_witness :
    effectiveNumFrames (some (-2)) = 3 ∧
    effectiveNumFrames (some 5) = 5 ∧
    (view_video_segment_impl demoMediaEnv "00:00:01" "00:00:03" (some 5)
        none).images.length ≤ (effectiveNumFrames (some 5)).toNat ∧
    ((view_video_segment_impl demoMediaEnv "00:00:01" "00:00:03" (some 5) none).status =
        .ok ∨
      (view_video_segment_impl demoMediaEnv "00:00:01" "00:00:03" (some 5) none).status =
        .okNoMedia) := by
  have h1 : ViewTool.parse_time_to_seconds "00:00:01" = some 1 := by
    rw [parse_time_eval _ 0 0 1 0 (by decide)]
    norm_num [secondsOf]
  have h3 : ViewTool.parse_time_to_seconds "00:00:03" = some 3 := by
    rw [parse_time_eval _ 0 0 3 0 (by decide)]
    norm_num [secondsOf]
  refine ⟨frame_count_bounds.1.2.1 (-2) (by norm_num),
    frame_count_bounds.1.2.2 5 (by norm_num),
    frame_count_bounds.2.1 demoMediaEnv _ _ (some 5) none, ?_⟩
  exact frame_count_bounds.2.2 demoMediaEnv _ _ (some 5) none 1 3 ⟨5, 0, 0, 0, false⟩
    rfl h1 h3 (by norm_num) (by norm_num) (by norm_num) rfl (by norm_num)

end Cadence

namespace Cadence

/-! ### Claim C9 — listing degrades per entry on probe failure -/

/-- C9: a video file whose metadata probe fails is still listed — its
metadata-unavailable block appears among the listing lines, the listing
has exactly one block per video file (nothing is omitted), and the
whole listing is still produced (header plus joined blocks), not
aborted. -/
theorem listing_keeps_probe_failures (dirPath : String) (entries : List DirEntry)
    (e : DirEntry) (he : e ∈ entries) (hv : isVideoFileEntry e = true)
    (hp : e.probe = none) :
    ("- " ++ e.name ++ ":\n    Metadata: Could not retrieve or not a valid video format.")
        ∈ listingLines entries ∧
    (listingLines entries).length = (entries.filter fun x => isVideoFileEntry x).length ∧
    list_directory_contents_impl true true dirPath entries =
      "Video files in \x27" ++ baseName dirPath ++ "\x27:\n" ++
        joinSep "\n\n" (listingLines entries) := by
  have hmem : e ∈ entries.filter fun x => isVideoFileEntry x :=
    List.mem_filter.mpr ⟨he, hv⟩
  have hline : infoLine e =
      "- " ++ e.name ++ ":\n    Metadata: Could not retrieve or not a valid video format." := by
    unfold infoLine
    rw [hp]
  have hmarker :
      ("- " ++ e.name ++ ":\n    Metadata: Could not retrieve or not a valid video format.")
        ∈ listingLines entries := by
    unfold listingLines
    rw [← hline]
    exact List.mem_map_of_mem infoLine hmem
  refine ⟨hmarker, by unfold listingLines; rw [List.length_map], ?_⟩
  unfold list_directory_contents_impl
  have hne : listingLines entries ≠ [] := List.ne_nil_of_mem hmarker
  simp [hne]

/-- Witness for `listing_keeps_probe_failures`: a directory with one
probe-failed video file and one healthy one. -/
theorem listing_keeps_probe_failures_witness :
    ("- " ++ "broken.mp4" ++
        ":\n    Metadata: Could not retrieve or not a valid video format.")
      ∈ listingLines
        [⟨"broken.mp4", .file, none, 100⟩,
         ⟨"good.mp4", .file, some ⟨125, 1920, 1080, 30, true⟩, 5000000⟩] ∧
    (listingLines
        [⟨"broken.mp4", .file, none, 100⟩,
         ⟨"good.mp4", .file, some ⟨125, 1920, 1080, 30, true⟩, 5000000⟩]).length =
      ([⟨"broken.mp4", .file, none, 100⟩,
        ⟨"good.mp4", .file, some ⟨125, 1920, 1080, 30, true⟩, 5000000⟩].filter
          fun x => isVideoFileEntry x).length ∧
    list_directory_contents_impl true true "videos"
        [⟨"broken.mp4", .file, none, 100⟩,
         ⟨"good.mp4", .file, some ⟨125, 1920, 1080, 30, true⟩, 5000000⟩] =
      "Video files in \x27" ++ baseName "videos" ++ "\x27:\n" ++
        joinSep "\n\n"
          (listingLines
            [⟨"broken.mp4", .file, none, 100⟩,
             ⟨"good.mp4", .file, some ⟨125, 1920, 1080, 30, true⟩, 5000000⟩]) :=
  listing_keeps_probe_failures "videos"
    [⟨"broken.mp4", .file, none, 100⟩,
     ⟨"good.mp4", .file, some ⟨125, 1920, 1080, 30, true⟩, 5000000⟩]
    ⟨"broken.mp4", .file, none, 100⟩ (List.mem_cons_self _ _) (by decide) rfl

end Cadence
